import Mathlib

/-!
Verification of the weather analytics engine of the `weather-insight`
repository (anomaly detection, trend analysis with forecasting, pattern
clustering) against its natural-language specification.

The engine itself lives in `backend/app/ml/` (Python), which is not part of
the source snapshot; only the architecture documents (with partial code
excerpts), the REST API documentation and the React frontend are.  The
engine definitions below are therefore modelled from the specification
(each such definition carries a doc comment starting `Modelled from the
spec:`), corroborated by the code excerpts in the architecture document.
The frontend percentage computation is translated directly from the
`PatternClustering` React component, which is present in the snapshot.

Numeric convention: the Python engine computes in IEEE double precision; the
model uses `ℚ` for all arithmetic.  The one primitive that leaves `ℚ` is the
square root used by the population standard deviation; it is abstracted as a
`SqrtFun` parameter (any function `ℚ → ℚ` sending `0` to `0`), so every
theorem below holds for an arbitrary square-root primitive.
-/

namespace WeatherInsight

/-- Modelled from the spec: abstraction of the numeric square-root primitive
used by `StatUtils.stddev` (`numpy` float square root in the missing
`backend/app/ml` sources).  Only the fact that the square root of `0` is `0`
is ever needed; all theorems hold for every such function. -/
structure SqrtFun where
  toFun : ℚ → ℚ
  map_zero : toFun 0 = 0

/-- Modelled from the spec: `StatUtils.mean(values)`, the arithmetic mean.
The engine only calls it on non-empty lists (the spec's
`DegenerateInputError` on empty input is unreachable from the analyzers,
whose minimum-size guards run first); on the empty list this total model
returns `0`. -/
def mean (l : List ℚ) : ℚ := l.sum / l.length

/-- Modelled from the spec: population variance (divisor `n`), the square of
`StatUtils.stddev`. -/
def variance (l : List ℚ) : ℚ :=
  ((l.map (fun v => (v - mean l) ^ 2)).sum) / l.length

/-- Modelled from the spec: `StatUtils.stddev(values)` in population form,
i.e. the square root of `variance`; `s` is the square-root primitive. -/
def stddev (s : SqrtFun) (l : List ℚ) : ℚ := s.toFun (variance l)

/-- Modelled from the spec: the engine's typed error taxonomy
(`InsufficientDataError`, `DegenerateInputError`). -/
inductive EngineError where
  | insufficientData : String → EngineError
  | degenerateInput : String → EngineError
deriving DecidableEq

/-- Returns `true` exactly on `InsufficientDataError` results. -/
def isInsufficientData {α : Type} : Except EngineError α → Bool
  | .error (.insufficientData _) => true
  | _ => false

/-- Modelled from the spec: `AnomalyRecord.severity ∈ {Low, Medium, High}`. -/
inductive Severity where
  | Low | Medium | High
deriving DecidableEq

/-- Modelled from the spec: `TrendResult.direction`. -/
inductive Direction where
  | increasing | decreasing | stable
deriving DecidableEq

/-- Modelled from the spec: `TrendResult.confidenceTier`. -/
inductive ConfidenceTier where
  | high | medium | low
deriving DecidableEq

/-- Modelled from the spec: one weather observation
`{timestamp, temperature, humidity?, pressure?, conditionLabel?}`.
Timestamps are abstracted as naturals (ordered, unique per city). -/
structure Observation where
  timestamp : ℕ
  temperature : ℚ
  humidity : Option ℚ
  pressure : Option ℚ
  conditionLabel : Option String
deriving DecidableEq

/-- Modelled from the spec: one emitted anomaly
`{timestamp, observedValue, expectedValue, deviation, severity}`. -/
structure AnomalyRecord where
  timestamp : ℕ
  observedValue : ℚ
  expectedValue : ℚ
  deviation : ℚ
  severity : Severity
deriving DecidableEq

/-- Modelled from the spec: `classify_severity` of
`backend/app/ml/anomaly_detection.py` (absent from the snapshot), the
severity band table of §4.2: `|z| > 3` is High, `2 < |z| ≤ 3` is Medium and
the remaining emitted band (`1.5 < |z| ≤ 2`, the caller's gate) is Low. -/
def classify_severity (z : ℚ) : Severity :=
  if 3 < |z| then Severity.High
  else if 2 < |z| then Severity.Medium
  else Severity.Low

/-- Modelled from the spec: the per-observation body of the detector's loop
— compute `z = (value - mean)/stddev` and emit a record exactly when
`|z| > 1.5`. -/
def anomalyOf (m sd : ℚ) (o : Observation) : Option AnomalyRecord :=
  let z := (o.temperature - m) / sd
  if 3 / 2 < |z| then
    some ⟨o.timestamp, o.temperature, m, z, classify_severity z⟩
  else none

/-- Modelled from the spec: `detectAnomalies(observations)` of
`backend/app/ml/anomaly_detection.py` (absent from the snapshot), with the
spec's default thresholds `1.5 / 2.0 / 3.0` fixed.  Fewer than 10
observations fail with `InsufficientDataError`; a zero standard deviation
returns the empty list; otherwise each observation with `|z| > 1.5` is
emitted with its z-score and severity, in input (timestamp) order. -/
def detectAnomalies (s : SqrtFun) (obs : List Observation) :
    Except EngineError (List AnomalyRecord) :=
  if obs.length < 10 then
    .error (.insufficientData "anomaly detection requires at least 10 observations")
  else
    let temps := obs.map (·.temperature)
    let m := mean temps
    let sd := stddev s temps
    if sd = 0 then .ok []
    else .ok (obs.filterMap (anomalyOf m sd))

/-- The z-score the detector computes for observation `o` of the window
`obs` — number of (population) standard deviations from the window mean. -/
def zscoreOf (s : SqrtFun) (obs : List Observation) (o : Observation) : ℚ :=
  (o.temperature - mean (obs.map (·.temperature))) / stddev s (obs.map (·.temperature))

/-- The anomaly record the detector would emit for observation `o` of the
window `obs`, at severity `sev`. -/
def anomalyRec (s : SqrtFun) (obs : List Observation) (o : Observation)
    (sev : Severity) : AnomalyRecord :=
  ⟨o.timestamp, o.temperature, mean (obs.map (·.temperature)), zscoreOf s obs o, sev⟩

/-- Modelled from the spec: one forecast entry of a `TrendResult`
(`dayOffset 1..7`, prediction and 95 % band). -/
structure ForecastEntry where
  dayOffset : ℕ
  predictedValue : ℚ
  lowerBound : ℚ
  upperBound : ℚ
deriving DecidableEq

/-- Modelled from the spec: the `TrendResult` record of §3. -/
structure TrendResult where
  slope : ℚ
  intercept : ℚ
  rSquared : ℚ
  direction : Direction
  confidenceTier : ConfidenceTier
  forecast : List ForecastEntry
deriving DecidableEq

/-- Modelled from the spec: the closed-form OLS slope of
`StatUtils.olsFit`, `Σ(x-x̄)(y-ȳ) / Σ(x-x̄)²`. -/
def olsSlope (xs ys : List ℚ) : ℚ :=
  ((xs.zip ys).map (fun p => (p.1 - mean xs) * (p.2 - mean ys))).sum /
    ((xs.map (fun x => (x - mean xs) ^ 2)).sum)

/-- Modelled from the spec: the closed-form OLS intercept of
`StatUtils.olsFit`, `ȳ - slope·x̄`. -/
def olsIntercept (xs ys : List ℚ) : ℚ := mean ys - olsSlope xs ys * mean xs

/-- Modelled from the spec: `StatUtils.olsFit(xs, ys)`, failing with
`DegenerateInputError` when `variance(xs) = 0` (no two distinct x values). -/
def olsFit (xs ys : List ℚ) : Except EngineError (ℚ × ℚ) :=
  if variance xs = 0 then
    .error (.degenerateInput "ols fit requires at least two distinct x values")
  else .ok (olsSlope xs ys, olsIntercept xs ys)

/-- Modelled from the spec: the day-index x series `0..n-1` of
`analyzeTrend`. -/
def xsOf (n : ℕ) : List ℚ := List.map (fun i : ℕ => (i : ℚ)) (List.range n)

/-- Modelled from the spec: the OLS residual series
`ys[i] - (slope·i + intercept)` of `analyzeTrend` step 3. -/
def residualsOf (slope intercept : ℚ) (ys : List ℚ) : List ℚ :=
  ys.enum.map (fun p => p.2 - (slope * (p.1 : ℚ) + intercept))

/-- Modelled from the spec: the total sum of squares about `mean ys` used by
the R² computation of `analyzeTrend` step 5. -/
def totalSS (ys : List ℚ) : ℚ := (ys.map (fun y => (y - mean ys) ^ 2)).sum

/-- Modelled from the spec: `rSquared = 1 - SS_residual/SS_total`, defined as
`1` when `SS_total = 0` (constant series). -/
def rSquaredOf (slope intercept : ℚ) (ys : List ℚ) : ℚ :=
  if totalSS ys = 0 then 1
  else 1 - ((residualsOf slope intercept ys).map (fun r => r ^ 2)).sum / totalSS ys

/-- Modelled from the spec: the trend-direction band table of `analyzeTrend`
step 4 (`slope > 0.01` increasing, `slope < -0.01` decreasing, else
stable). -/
def directionOf (slope : ℚ) : Direction :=
  if 1 / 100 < slope then Direction.increasing
  else if slope < -(1 / 100) then Direction.decreasing
  else Direction.stable

/-- Modelled from the spec: the confidence-tier band table of `analyzeTrend`
step 5 (`R² > 0.7` high, `0.4 < R² ≤ 0.7` medium, else low). -/
def tierOf (r2 : ℚ) : ConfidenceTier :=
  if 7 / 10 < r2 then ConfidenceTier.high
  else if 4 / 10 < r2 then ConfidenceTier.medium
  else ConfidenceTier.low

/-- Modelled from the spec: the forecast list of `analyzeTrend` step 6: for
`dayOffset` in `1..forecastDays`, `x = n - 1 + dayOffset`,
`predicted = slope·x + intercept`, flat margin `1.96 · residualStd`. -/
def forecastOf (slope intercept rstd : ℚ) (n fd : ℕ) : List ForecastEntry :=
  (List.range fd).map (fun i =>
    let d : ℕ := i + 1
    let x : ℚ := (n : ℚ) - 1 + (d : ℚ)
    let p : ℚ := slope * x + intercept
    ⟨d, p, p - 196 / 100 * rstd, p + 196 / 100 * rstd⟩)

/-- Modelled from the spec: assembly of the `TrendResult` from the fitted
slope and intercept (steps 3–6 of `analyzeTrend`). -/
def mkTrendResult (s : SqrtFun) (obs : List Observation) (fd : ℕ)
    (slope intercept : ℚ) : TrendResult :=
  let ys := obs.map (·.temperature)
  let rstd := stddev s (residualsOf slope intercept ys)
  { slope := slope
    intercept := intercept
    rSquared := rSquaredOf slope intercept ys
    direction := directionOf slope
    confidenceTier := tierOf (rSquaredOf slope intercept ys)
    forecast := forecastOf slope intercept rstd obs.length fd }

/-- Modelled from the spec: `analyzeTrend(observations, forecastDays=7)` of
`backend/app/ml/trend_analysis.py` (absent from the snapshot).  Fewer than
30 observations fail with `InsufficientDataError`; a degenerate OLS fit
(impossible here but handled defensively, §4.3 step 2) propagates; otherwise
the `TrendResult` of steps 3–6 is returned. -/
def analyzeTrend (s : SqrtFun) (obs : List Observation) (fd : ℕ := 7) :
    Except EngineError TrendResult :=
  if obs.length < 30 then
    .error (.insufficientData "trend analysis requires at least 30 observations")
  else
    match olsFit (xsOf obs.length) (obs.map (·.temperature)) with
    | .error e => .error e
    | .ok si => .ok (mkTrendResult s obs fd si.1 si.2)

/-- Modelled from the spec: a standardized (or raw) three-feature point
`(temperature, humidity, pressure)`. -/
abbrev Point3 := ℚ × ℚ × ℚ

/-- Modelled from the spec: one valid clustering row, the three required
features of an observation together with its timestamp. -/
structure FeatRow where
  timestamp : ℕ
  temp : ℚ
  humid : ℚ
  press : ℚ
deriving DecidableEq

/-- Modelled from the spec: the `ClusterResult` record of §3, with the
centroid reported in original units. -/
structure ClusterResult where
  clusterId : ℕ
  label : String
  centroidTemp : ℚ
  centroidHumid : ℚ
  centroidPress : ℚ
  memberCount : ℕ
  memberPercentage : ℚ
  representativeTimestamps : List ℕ
deriving DecidableEq

/-- Modelled from the spec: the pre-filtering of `clusterPatterns`
(§4.4 precondition): observations missing humidity or pressure are excluded
before the count check. -/
def featRows (obs : List Observation) : List FeatRow :=
  (obs.filter (fun o => o.humidity.isSome && o.pressure.isSome)).map
    (fun o => ⟨o.timestamp, o.temperature, o.humidity.getD 0, o.pressure.getD 0⟩)

/-- Modelled from the spec: `StatUtils.standardize` on one column: rescale to
zero mean and unit variance, leaving a zero-variance column as zero rather
than dividing by zero. -/
def colStd (s : SqrtFun) (col : List ℚ) : List ℚ :=
  let m := mean col
  let sd := stddev s col
  col.map (fun v => if sd = 0 then 0 else (v - m) / sd)

/-- Modelled from the spec: the standardized feature matrix of
`clusterPatterns` step 1, column by column. -/
def standardRows (s : SqrtFun) (rows : List FeatRow) : List Point3 :=
  let ts := colStd s (rows.map (·.temp))
  let hs := colStd s (rows.map (·.humid))
  let ps := colStd s (rows.map (·.press))
  ts.zipWith (fun a bc => (a, bc)) (hs.zip ps)

/-- Modelled from the spec: the fixed composite sort key of
`clusterPatterns` step 2 — lexicographic order on the three standardized
values. -/
def lexLe (a b : Point3) : Bool :=
  decide (a.1 < b.1) ||
    (decide (a.1 = b.1) &&
      (decide (a.2.1 < b.2.1) ||
        (decide (a.2.1 = b.2.1) && decide (a.2.2 ≤ b.2.2))))

/-- Modelled from the spec: the deterministic centroid initialization of
`clusterPatterns` step 2 — sort the standardized rows by the fixed composite
key and pick `k` evenly spaced rows. -/
def initCentroids (k : ℕ) (srows : List Point3) : List Point3 :=
  let sorted := srows.mergeSort lexLe
  (List.range k).map (fun i => sorted.getD (i * srows.length / k) (0, 0, 0))

/-- Modelled from the spec: squared Euclidean distance in standardized
feature space.  Distances are only ever compared with each other or with the
squared tolerance, so the square root is never needed. -/
def dist2 (a b : Point3) : ℚ :=
  (a.1 - b.1) ^ 2 + (a.2.1 - b.2.1) ^ 2 + (a.2.2 - b.2.2) ^ 2

/-- Index of the first minimum of a list of rationals (ties broken towards
the lowest index, as `numpy.argmin` does); `0` on the empty list. -/
def argminFirst : List ℚ → ℕ
  | [] => 0
  | [_] => 0
  | x :: y :: t =>
    let j := argminFirst (y :: t)
    if x ≤ (y :: t).getD j 0 then 0 else j + 1

/-- Index of the first maximum of a list of rationals (ties broken towards
the lowest index); `0` on the empty list. -/
def argmaxFirst : List ℚ → ℕ
  | [] => 0
  | [_] => 0
  | x :: y :: t =>
    let j := argmaxFirst (y :: t)
    if x < (y :: t).getD j 0 then j + 1 else 0

/-- Modelled from the spec: the assignment step of Lloyd's algorithm
(`clusterPatterns` step 3) — each row goes to its nearest centroid by
Euclidean distance in standardized space, first centroid on ties. -/
def assignIndex (cents : List Point3) (r : Point3) : ℕ :=
  argminFirst (cents.map (dist2 r))

/-- Componentwise mean of a list of standardized points (the centroid
recomputation of Lloyd's algorithm). -/
def centroidMean (l : List Point3) : Point3 :=
  (mean (l.map (·.1)), mean (l.map (·.2.1)), mean (l.map (·.2.2)))

/-- Modelled from the spec: the empty-cluster reseeding policy of
`clusterPatterns` step 4 — the row currently farthest (by distance to its
own assigned centroid), scanning rows in original observation order for the
first qualifying candidate. -/
def reseedPoint (rows cents : List Point3) (asg : List ℕ) : Point3 :=
  let dists := (rows.zip asg).map (fun p => dist2 p.1 (cents.getD p.2 (0, 0, 0)))
  rows.getD (argmaxFirst dists) (0, 0, 0)

/-- Modelled from the spec: one Lloyd iteration (`clusterPatterns` steps
3–4): assign every row to its nearest centroid, then recompute each centroid
as the mean of its assigned rows, reseeding empty clusters. -/
def updateCentroids (rows cents : List Point3) : List Point3 :=
  let asg := rows.map (assignIndex cents)
  (List.range cents.length).map (fun i =>
    let members := ((rows.zip asg).filter (fun p => p.2 == i)).map (·.1)
    if members.isEmpty then reseedPoint rows cents asg else centroidMean members)

/-- Largest squared centroid movement between two centroid lists (compared
against the squared tolerance in the convergence check). -/
def maxMove2 (old next : List Point3) : ℚ :=
  ((old.zip next).map (fun p => dist2 p.1 p.2)).foldl max 0

/-- Modelled from the spec: the iteration of Lloyd's algorithm
(`clusterPatterns` step 3), run until the maximum centroid movement falls
below the tolerance or `maxIterations` is exhausted.  `tol2` is the squared
tolerance (movement below tolerance iff squared movement below `tol2`). -/
def lloyd (rows : List Point3) (tol2 : ℚ) : ℕ → List Point3 → List Point3
  | 0, cents => cents
  | fuel + 1, cents =>
    let next := updateCentroids rows cents
    if maxMove2 cents next < tol2 then next
    else lloyd rows tol2 fuel next

/-- Modelled from the spec: `ClassificationRules.labelPattern(avgTemp,
avgHumidity)` (`classify_pattern` of the absent
`backend/app/ml/pattern_clustering.py`), the complete non-overlapping
threshold table of §4.4 step 6 with its explicit `"Variable"` default. -/
def labelPattern (t h : ℚ) : String :=
  if t < 10 ∧ h < 60 then "Cold & Dry"
  else if t < 10 ∧ 60 ≤ h then "Cold & Humid"
  else if 10 ≤ t ∧ t < 20 then "Moderate"
  else if 20 ≤ t ∧ 70 ≤ h then "Warm & Humid"
  else "Variable"

/-- Modelled from the spec: assembly of one `ClusterResult`
(`clusterPatterns` steps 5–7): members of cluster `i`, centroid in original
units (means of the members' raw features), member count,
`memberPercentage = 100·count/totalObservations`, label from the rule table,
and a bounded sample of member timestamps.  (Timestamps are abstract here,
so the spec's deduplication by calendar date is not modelled; no claim
concerns it.) -/
def mkCluster (rows : List FeatRow) (labels : List ℕ) (i : ℕ) : ClusterResult :=
  let members := ((rows.zip labels).filter (fun p => p.2 == i)).map (·.1)
  let avgT := mean (members.map (·.temp))
  let avgH := mean (members.map (·.humid))
  { clusterId := i
    label := labelPattern avgT avgH
    centroidTemp := avgT
    centroidHumid := avgH
    centroidPress := mean (members.map (·.press))
    memberCount := members.length
    memberPercentage := 100 * (members.length : ℚ) / (rows.length : ℚ)
    representativeTimestamps := (members.map (·.timestamp)).take 5 }

/-- Modelled from the spec: the final cluster assignment of
`clusterPatterns` — standardize the valid rows, initialize centroids
deterministically, run Lloyd's iteration, and assign every row to its
nearest final centroid. -/
def clusterLabels (s : SqrtFun) (rows : List FeatRow) (k mi : ℕ) (tol : ℚ) :
    List ℕ :=
  let srows := standardRows s rows
  let cents := lloyd srows (tol ^ 2) mi (initCentroids k srows)
  srows.map (assignIndex cents)

/-- Modelled from the spec: `clusterPatterns(observations, k,
maxIterations=100, tolerance=1e-4)` of `backend/app/ml/pattern_clustering.py`
(absent from the snapshot).  Valid rows (all three features present) below
30 fail with `InsufficientDataError`; otherwise standardize, initialize
deterministically, iterate Lloyd's algorithm, and report the `k` clusters in
ascending `clusterId` order. -/
def clusterPatterns (s : SqrtFun) (obs : List Observation) (k : ℕ)
    (maxIterations : ℕ := 100) (tolerance : ℚ := 1 / 10000) :
    Except EngineError (List ClusterResult) :=
  let rows := featRows obs
  if rows.length < 30 then
    .error (.insufficientData "pattern clustering requires at least 30 observations")
  else
    .ok ((List.range k).map (mkCluster rows (clusterLabels s rows k maxIterations tolerance)))

/-- Witness square-root primitive: Mathlib's rational square root
(exact on perfect squares, floor-like otherwise), a valid `SqrtFun`. -/
def sqrtW : SqrtFun := ⟨Rat.sqrt, by decide⟩

/-- Witness window for anomaly detection: ten observations with distinct
timestamps and temperatures `0,0,0,0,0,2,2,2,2,2` (mean 1, variance 1). -/
def obsW10 : List Observation := [⟨0, 0, some 50, some 1000, none⟩, ⟨1, 0, some 50, some 1000, none⟩, ⟨2, 0, some 50, some 1000, none⟩, ⟨3, 0, some 50, some 1000, none⟩, ⟨4, 0, some 50, some 1000, none⟩, ⟨5, 2, some 50, some 1000, none⟩, ⟨6, 2, some 50, some 1000, none⟩, ⟨7, 2, some 50, some 1000, none⟩, ⟨8, 2, some 50, some 1000, none⟩, ⟨9, 2, some 50, some 1000, none⟩]

/-- Witness observation inside `obsW10`. -/
def oW : Observation := ⟨5, 2, some 50, some 1000, none⟩

/-- Witness window with a constant temperature series. -/
def obsConst10 : List Observation := [⟨0, 5, some 50, some 1000, none⟩, ⟨1, 5, some 50, some 1000, none⟩, ⟨2, 5, some 50, some 1000, none⟩, ⟨3, 5, some 50, some 1000, none⟩, ⟨4, 5, some 50, some 1000, none⟩, ⟨5, 5, some 50, some 1000, none⟩, ⟨6, 5, some 50, some 1000, none⟩, ⟨7, 5, some 50, some 1000, none⟩, ⟨8, 5, some 50, some 1000, none⟩, ⟨9, 5, some 50, some 1000, none⟩]

/-- Witness window for trend analysis and clustering: thirty observations
with all three features present. -/
def obsW30 : List Observation := [⟨0, 0, some 0, some 1000, none⟩,
  ⟨1, 1, some 10, some 1001, none⟩,
  ⟨2, 2, some 20, some 1002, none⟩,
  ⟨3, 3, some 30, some 1000, none⟩,
  ⟨4, 4, some 40, some 1001, none⟩,
  ⟨5, 5, some 50, some 1002, none⟩,
  ⟨6, 6, some 60, some 1000, none⟩,
  ⟨7, 7, some 0, some 1001, none⟩,
  ⟨8, 8, some 10, some 1002, none⟩,
  ⟨9, 9, some 20, some 1000, none⟩,
  ⟨10, 10, some 30, some 1001, none⟩,
  ⟨11, 11, some 40, some 1002, none⟩,
  ⟨12, 12, some 50, some 1000, none⟩,
  ⟨13, 13, some 60, some 1001, none⟩,
  ⟨14, 14, some 0, some 1002, none⟩,
  ⟨15, 15, some 10, some 1000, none⟩,
  ⟨16, 16, some 20, some 1001, none⟩,
  ⟨17, 17, some 30, some 1002, none⟩,
  ⟨18, 18, some 40, some 1000, none⟩,
  ⟨19, 19, some 50, some 1001, none⟩,
  ⟨20, 20, some 60, some 1002, none⟩,
  ⟨21, 21, some 0, some 1000, none⟩,
  ⟨22, 22, some 10, some 1001, none⟩,
  ⟨23, 23, some 20, some 1002, none⟩,
  ⟨24, 24, some 30, some 1000, none⟩,
  ⟨25, 25, some 40, some 1001, none⟩,
  ⟨26, 26, some 50, some 1002, none⟩,
  ⟨27, 27, some 60, some 1000, none⟩,
  ⟨28, 28, some 0, some 1001, none⟩,
  ⟨29, 29, some 10, some 1002, none⟩]

/-- Witness window identical to `obsW30` except for the (unused)
`conditionLabel` field of every observation. -/
def obsW30zz : List Observation := [⟨0, 0, some 0, some 1000, some "cloudy"⟩,
  ⟨1, 1, some 10, some 1001, some "cloudy"⟩,
  ⟨2, 2, some 20, some 1002, some "cloudy"⟩,
  ⟨3, 3, some 30, some 1000, some "cloudy"⟩,
  ⟨4, 4, some 40, some 1001, some "cloudy"⟩,
  ⟨5, 5, some 50, some 1002, some "cloudy"⟩,
  ⟨6, 6, some 60, some 1000, some "cloudy"⟩,
  ⟨7, 7, some 0, some 1001, some "cloudy"⟩,
  ⟨8, 8, some 10, some 1002, some "cloudy"⟩,
  ⟨9, 9, some 20, some 1000, some "cloudy"⟩,
  ⟨10, 10, some 30, some 1001, some "cloudy"⟩,
  ⟨11, 11, some 40, some 1002, some "cloudy"⟩,
  ⟨12, 12, some 50, some 1000, some "cloudy"⟩,
  ⟨13, 13, some 60, some 1001, some "cloudy"⟩,
  ⟨14, 14, some 0, some 1002, some "cloudy"⟩,
  ⟨15, 15, some 10, some 1000, some "cloudy"⟩,
  ⟨16, 16, some 20, some 1001, some "cloudy"⟩,
  ⟨17, 17, some 30, some 1002, some "cloudy"⟩,
  ⟨18, 18, some 40, some 1000, some "cloudy"⟩,
  ⟨19, 19, some 50, some 1001, some "cloudy"⟩,
  ⟨20, 20, some 60, some 1002, some "cloudy"⟩,
  ⟨21, 21, some 0, some 1000, some "cloudy"⟩,
  ⟨22, 22, some 10, some 1001, some "cloudy"⟩,
  ⟨23, 23, some 20, some 1002, some "cloudy"⟩,
  ⟨24, 24, some 30, some 1000, some "cloudy"⟩,
  ⟨25, 25, some 40, some 1001, some "cloudy"⟩,
  ⟨26, 26, some 50, some 1002, some "cloudy"⟩,
  ⟨27, 27, some 60, some 1000, some "cloudy"⟩,
  ⟨28, 28, some 0, some 1001, some "cloudy"⟩,
  ⟨29, 29, some 10, some 1002, some "cloudy"⟩]

/-- Witness rows for the frontend/engine percentage comparison: three valid
rows, to be split into three singleton clusters. -/
def rowsW3 : List FeatRow := [⟨0, 1, 50, 1000⟩, ⟨1, 2, 50, 1000⟩, ⟨2, 3, 50, 1000⟩]

/-- Used fields of an observation: everything `clusterPatterns` reads
(timestamp, temperature, humidity, pressure) — `conditionLabel` is not
consulted. -/
def projUsed (o : Observation) : ℕ × ℚ × Option ℚ × Option ℚ :=
  (o.timestamp, o.temperature, o.humidity, o.pressure)

/-- Translated from `src/unnamed/part_010` (the `PatternClustering` React
component): JavaScript `Math.round`, which rounds half towards positive
infinity. -/
def jsRound (q : ℚ) : ℤ := ⌊q + 1 / 2⌋

/-- Translated from `src/unnamed/part_010`: `loadPatterns` recomputes the
total day count as the sum of the returned clusters' `count` fields
(`data.patterns.reduce((sum, p) => sum + p.count, 0)`). -/
def frontendTotalDays (counts : List ℕ) : ℕ := counts.foldl (· + ·) 0

/-- Translated from `src/unnamed/part_010` line 96: the percentage the
component displays for a cluster with `count` members,
`Math.round((pattern.count / totalDays) * 100)` — an integer recomputed in
the frontend, not the engine's fractional `memberPercentage`. -/
def displayedPercent (counts : List ℕ) (c : ℕ) : ℤ :=
  jsRound ((c : ℚ) / (frontendTotalDays counts : ℚ) * 100)

/-- Severity-band property of one observation `o` of an accepted anomaly
window: with `z` the z-score the code computes for `o`, the High / Medium /
Low records appear in the result exactly on the bands `|z| > 3`,
`2 < |z| ≤ 3`, `1.5 < |z| ≤ 2`, and `o` is omitted exactly when
`|z| ≤ 1.5`. -/
def SeverityBandsProp (s : SqrtFun) (obs : List Observation) (o : Observation) : Prop :=
  ∃ recs, detectAnomalies s obs = Except.ok recs ∧
    (anomalyRec s obs o Severity.High ∈ recs ↔ 3 < |zscoreOf s obs o|) ∧
    (anomalyRec s obs o Severity.Medium ∈ recs ↔
      2 < |zscoreOf s obs o| ∧ |zscoreOf s obs o| ≤ 3) ∧
    (anomalyRec s obs o Severity.Low ∈ recs ↔
      3 / 2 < |zscoreOf s obs o| ∧ |zscoreOf s obs o| ≤ 2) ∧
    ((∀ r ∈ recs, r.timestamp ≠ o.timestamp) ↔ |zscoreOf s obs o| ≤ 3 / 2)

/-- Shape property of the forecast of an accepted trend window: exactly 7
entries, `dayOffset` ascending `1..7`, prediction `slope·(n-1+d) + intercept`
and flat bounds `± 1.96 · residualStd`, hence a constant interval width. -/
def ForecastShapeProp (s : SqrtFun) (obs : List Observation) : Prop :=
  ∃ tr, analyzeTrend s obs 7 = Except.ok tr ∧ tr.forecast.length = 7 ∧
    (∀ j, j < 7 →
      tr.forecast.getD j ⟨0, 0, 0, 0⟩ =
        { dayOffset := j + 1
          predictedValue := tr.slope * ((obs.length : ℚ) - 1 + ((j + 1 : ℕ) : ℚ)) + tr.intercept
          lowerBound := tr.slope * ((obs.length : ℚ) - 1 + ((j + 1 : ℕ) : ℚ)) + tr.intercept -
            196 / 100 * stddev s (residualsOf tr.slope tr.intercept (obs.map (·.temperature)))
          upperBound := tr.slope * ((obs.length : ℚ) - 1 + ((j + 1 : ℕ) : ℚ)) + tr.intercept +
            196 / 100 * stddev s (residualsOf tr.slope tr.intercept (obs.map (·.temperature))) }) ∧
    (∀ j j', j < 7 → j' < 7 → j < j' →
      (tr.forecast.getD j ⟨0, 0, 0, 0⟩).dayOffset < (tr.forecast.getD j' ⟨0, 0, 0, 0⟩).dayOffset) ∧
    (∀ j j', j < 7 → j' < 7 →
      (tr.forecast.getD j ⟨0, 0, 0, 0⟩).upperBound - (tr.forecast.getD j ⟨0, 0, 0, 0⟩).lowerBound =
      (tr.forecast.getD j' ⟨0, 0, 0, 0⟩).upperBound - (tr.forecast.getD j' ⟨0, 0, 0, 0⟩).lowerBound)

/-- Partition property of an accepted clustering input: `k` clusters whose
member counts sum to the number of valid observations, each
`memberPercentage` equal to `100·count/total`, and percentages summing to
exactly 100 (so certainly within the spec's ±0.1 tolerance). -/
def PartitionProp (s : SqrtFun) (obs : List Observation) (k mi : ℕ) (tol : ℚ) : Prop :=
  ∃ res, clusterPatterns s obs k mi tol = Except.ok res ∧
    res.length = k ∧
    (res.map ClusterResult.memberCount).sum = (featRows obs).length ∧
    (∀ c ∈ res,
      c.memberPercentage = 100 * (c.memberCount : ℚ) / ((featRows obs).length : ℚ)) ∧
    (res.map ClusterResult.memberPercentage).sum = 100 ∧
    |(res.map ClusterResult.memberPercentage).sum - 100| ≤ 1 / 10

/-! ## Helper lemmas -/

lemma sum_const_list {l : List ℚ} {c : ℚ} (h : ∀ v ∈ l, v = c) :
    l.sum = l.length * c := by
  induction l with
  | nil => simp
  | cons a t ih =>
    have ha : a = c := h a (by simp)
    have ht : ∀ v ∈ t, v = c := fun v hv => h v (by simp [hv])
    simp [ha, ih ht]
    ring

lemma mean_const {l : List ℚ} {c : ℚ} (h : ∀ v ∈ l, v = c) (hne : l ≠ []) :
    mean l = c := by
  have hlen : (l.length : ℚ) ≠ 0 := by
    simpa using List.length_pos.mpr hne |>.ne'
  rw [mean, sum_const_list h, mul_comm, mul_div_assoc, div_self hlen, mul_one]

lemma variance_const {l : List ℚ} {c : ℚ} (h : ∀ v ∈ l, v = c) :
    variance l = 0 := by
  rcases eq_or_ne l [] with rfl | hne
  · simp [variance]
  · have : (l.map (fun v => (v - mean l) ^ 2)).sum = 0 := by
      apply List.sum_eq_zero
      intro x hx
      obtain ⟨v, hv, rfl⟩ := List.mem_map.mp hx
      rw [h v hv, mean_const h hne]
      ring
    rw [variance, this, zero_div]

/-! ## C2 — `InsufficientDataError` exactly below the minimum sizes -/

/-- C2: each analyzer fails with `InsufficientDataError` exactly when its
input is below its minimum size and never otherwise: `detectAnomalies` below
10 observations, `analyzeTrend` below 30 observations, `clusterPatterns`
below 30 valid (post-filtering) observations. -/
theorem c2_insufficient_data_iff (s : SqrtFun) (obs : List Observation)
    (fd k mi : ℕ) (tol : ℚ) :
    (isInsufficientData (detectAnomalies s obs) = true ↔ obs.length < 10) ∧
    (isInsufficientData (analyzeTrend s obs fd) = true ↔ obs.length < 30) ∧
    (isInsufficientData (clusterPatterns s obs k mi tol) = true ↔
      (featRows obs).length < 30) := by
  refine ⟨?_, ?_, ?_⟩
  · by_cases h : obs.length < 10
    · simp [detectAnomalies, h, isInsufficientData]
    · simp only [detectAnomalies, if_neg h]
      constructor
      · intro hx
        exfalso
        revert hx
        split <;> simp [isInsufficientData]
      · intro hx
        exact absurd hx h
  · by_cases h : obs.length < 30
    · simp [analyzeTrend, h, isInsufficientData]
    · simp only [analyzeTrend, if_neg h]
      by_cases hv : variance (xsOf obs.length) = 0 <;>
        simp [olsFit, hv, isInsufficientData, h]
  · by_cases h : (featRows obs).length < 30 <;>
      simp [clusterPatterns, h, isInsufficientData]

/-! ## C3 — flat series return the empty list without error -/

/-- C3: on every window of at least 10 observations whose temperature series
is constant (hence of population standard deviation 0), `detectAnomalies`
returns the empty list successfully — the zero-variance guard fires before
any z-score division. -/
theorem c3_flat_series_empty (s : SqrtFun) (obs : List Observation) (c : ℚ)
    (h10 : 10 ≤ obs.length) (hc : ∀ v ∈ obs.map (·.temperature), v = c) :
    detectAnomalies s obs = Except.ok [] := by
  have hvar : variance (obs.map (·.temperature)) = 0 := variance_const hc
  have hsd : stddev s (obs.map (·.temperature)) = 0 := by
    rw [stddev, hvar, s.map_zero]
  have hnot : ¬ obs.length < 10 := by omega
  simp [detectAnomalies, hnot, hsd]

/-- C3 witness: ten observations at constant temperature 5 satisfy the
hypotheses, and the detector returns the empty list. -/
theorem c3_witness :
    (10 ≤ obsConst10.length ∧ ∀ v ∈ obsConst10.map (·.temperature), v = 5) ∧
    detectAnomalies sqrtW obsConst10 = Except.ok [] :=
  ⟨⟨by decide, by decide⟩,
    c3_flat_series_empty sqrtW obsConst10 5 (by decide) (by decide)⟩

/-! ## C9 — the pattern label table is total and non-overlapping -/

/-- C9: `labelPattern` realises a total, non-overlapping threshold table:
each listed band is equivalent to its label, the explicit `"Variable"`
default is equivalent to the complement of the four bands (which reduces to
`temp ≥ 20 ∧ humidity < 70`), and every input receives one of the five
labels — no pair falls through unlabeled. -/
theorem c9_label_table_total (t h : ℚ) :
    (labelPattern t h = "Cold & Dry" ↔ t < 10 ∧ h < 60) ∧
    (labelPattern t h = "Cold & Humid" ↔ t < 10 ∧ 60 ≤ h) ∧
    (labelPattern t h = "Moderate" ↔ 10 ≤ t ∧ t < 20) ∧
    (labelPattern t h = "Warm & Humid" ↔ 20 ≤ t ∧ 70 ≤ h) ∧
    (labelPattern t h = "Variable" ↔ 20 ≤ t ∧ h < 70) ∧
    (labelPattern t h = "Cold & Dry" ∨ labelPattern t h = "Cold & Humid" ∨
      labelPattern t h = "Moderate" ∨ labelPattern t h = "Warm & Humid" ∨
      labelPattern t h = "Variable") := by
  unfold labelPattern
  split_ifs with h1 h2 h3 h4 <;>
    refine ⟨?_, ?_, ?_, ?_, ?_, ?_⟩ <;> simp <;> push_neg at * <;>
    first
      | exact h1 | exact h2 | exact h3 | exact h4
      | (intros; linarith [h1.1, h1.2])
      | (intros; linarith [h2.1, h2.2])
      | (intros; linarith [h3.1, h3.2])
      | (intros; linarith [h4.1, h4.2])
      | (have h10t : 10 ≤ t := by
           by_contra hx
           push_neg at hx
           linarith [h1 hx, h2 hx]
         have h20t : 20 ≤ t := h3 h10t
         exact ⟨h20t, h4 h20t⟩)

/-! ## C10 — the frontend recomputes integer percentages -/

/-- C10: the `PatternClustering` component displays
`Math.round(100·count/T)` with `T` the sum of the returned counts — an
integer recomputed in the frontend.  On three equal clusters of one member
each, every displayed percentage is 33 while the engine's
`memberPercentage` is 100/3, and the displayed percentages sum to 99, off
from 100 by more than the engine's ±0.1 tolerance. -/
theorem c10_frontend_percentages :
    (∀ (counts : List ℕ) (c : ℕ),
      displayedPercent counts c =
        jsRound (100 * (c : ℚ) / (frontendTotalDays counts : ℚ))) ∧
    displayedPercent [1, 1, 1] 1 = 33 ∧
    ([1, 1, 1].map (displayedPercent [1, 1, 1])).sum = 99 ∧
    (mkCluster rowsW3 [0, 1, 2] 0).memberPercentage = 100 / 3 ∧
    ((33 : ℚ) ≠ 100 / 3) ∧
    |((99 : ℚ)) - 100| > 1 / 10 := by
  refine ⟨?_,
    by norm_num [displayedPercent, jsRound, frontendTotalDays],
    by norm_num [displayedPercent, jsRound, frontendTotalDays],
    by simp [mkCluster, rowsW3],
    by norm_num, by norm_num⟩
  intro counts c
  unfold displayedPercent
  congr 1
  ring

/-! ## Trend analysis: the OLS fit always succeeds on accepted inputs -/

lemma variance_xsOf_ne {n : ℕ} (hn : 2 ≤ n) : variance (xsOf n) ≠ 0 := by
  intro hzero
  have hlen : (xsOf n).length = n := by
    rw [xsOf, List.length_map, List.length_range]
  have hmem0 : (0 : ℚ) ∈ xsOf n :=
    List.mem_map.mpr ⟨0, List.mem_range.mpr (by omega), by norm_num⟩
  have hmem1 : (1 : ℚ) ∈ xsOf n :=
    List.mem_map.mpr ⟨1, List.mem_range.mpr (by omega), by norm_num⟩
  have hsum : ((xsOf n).map (fun v => (v - mean (xsOf n)) ^ 2)).sum = 0 := by
    rw [variance] at hzero
    rcases div_eq_zero_iff.mp hzero with h' | h'
    · exact h'
    · rw [hlen] at h'
      exact absurd h' (by exact_mod_cast (by omega : n ≠ 0))
  have hnn : ∀ y ∈ (xsOf n).map (fun v => (v - mean (xsOf n)) ^ 2), 0 ≤ y := by
    intro y hy
    obtain ⟨v, _, rfl⟩ := List.mem_map.mp hy
    positivity
  have key : ∀ x : ℚ, x ∈ xsOf n → x = mean (xsOf n) := by
    intro x hx
    have hle := List.single_le_sum hnn _ (List.mem_map_of_mem _ hx)
    rw [hsum] at hle
    have hz : (x - mean (xsOf n)) ^ 2 = 0 :=
      le_antisymm hle (by positivity)
    have := sq_eq_zero_iff.mp hz
    linarith [this]
  have e0 := key 0 hmem0
  have e1 := key 1 hmem1
  rw [← e0] at e1
  norm_num at e1

lemma analyzeTrend_eq (s : SqrtFun) (obs : List Observation) (fd : ℕ)
    (h : 30 ≤ obs.length) :
    analyzeTrend s obs fd = Except.ok (mkTrendResult s obs fd
      (olsSlope (xsOf obs.length) (obs.map (·.temperature)))
      (olsIntercept (xsOf obs.length) (obs.map (·.temperature)))) := by
  have hv : variance (xsOf obs.length) ≠ 0 := variance_xsOf_ne (by omega)
  simp [analyzeTrend, olsFit, hv, show ¬(obs.length < 30) by omega]

lemma directionOf_iff (sl : ℚ) :
    (directionOf sl = Direction.increasing ↔ 1 / 100 < sl) ∧
    (directionOf sl = Direction.decreasing ↔ sl < -(1 / 100)) ∧
    (directionOf sl = Direction.stable ↔ -(1 / 100) ≤ sl ∧ sl ≤ 1 / 100) := by
  unfold directionOf
  split_ifs with ha hb <;> refine ⟨?_, ?_, ?_⟩ <;> simp <;>
    first
      | linarith
      | (intros; linarith)
      | (constructor <;> linarith)

lemma tierOf_iff (r2 : ℚ) :
    (tierOf r2 = ConfidenceTier.high ↔ 7 / 10 < r2) ∧
    (tierOf r2 = ConfidenceTier.medium ↔ 4 / 10 < r2 ∧ r2 ≤ 7 / 10) ∧
    (tierOf r2 = ConfidenceTier.low ↔ r2 ≤ 4 / 10) := by
  unfold tierOf
  split_ifs with ha hb <;> refine ⟨?_, ?_, ?_⟩ <;> simp <;>
    first
      | linarith
      | (intros; linarith)
      | (constructor <;> linarith)

/-! ## C6 — trend direction bands -/

/-- C6: on every accepted trend input the returned direction is increasing
exactly when `slope > 0.01`, decreasing exactly when `slope < -0.01`, and
stable otherwise; in particular slope `0.005` yields stable and slope
`-0.02` yields decreasing. -/
theorem c6_direction_bands (s : SqrtFun) (obs : List Observation) (fd : ℕ)
    (h : 30 ≤ obs.length) :
    ∃ tr, analyzeTrend s obs fd = Except.ok tr ∧
      (tr.direction = Direction.increasing ↔ 1 / 100 < tr.slope) ∧
      (tr.direction = Direction.decreasing ↔ tr.slope < -(1 / 100)) ∧
      (tr.direction = Direction.stable ↔ -(1 / 100) ≤ tr.slope ∧ tr.slope ≤ 1 / 100) ∧
      (tr.slope = 1 / 200 → tr.direction = Direction.stable) ∧
      (tr.slope = -(1 / 50) → tr.direction = Direction.decreasing) := by
  refine ⟨_, analyzeTrend_eq s obs fd h, ?_⟩
  have hsl : (mkTrendResult s obs fd
      (olsSlope (xsOf obs.length) (obs.map (·.temperature)))
      (olsIntercept (xsOf obs.length) (obs.map (·.temperature)))).slope =
      olsSlope (xsOf obs.length) (obs.map (·.temperature)) := rfl
  have hdir : (mkTrendResult s obs fd
      (olsSlope (xsOf obs.length) (obs.map (·.temperature)))
      (olsIntercept (xsOf obs.length) (obs.map (·.temperature)))).direction =
      directionOf (olsSlope (xsOf obs.length) (obs.map (·.temperature))) := rfl
  rw [hsl, hdir]
  obtain ⟨d1, d2, d3⟩ := directionOf_iff (olsSlope (xsOf obs.length) (obs.map (·.temperature)))
  refine ⟨d1, d2, d3, ?_, ?_⟩
  · intro hx
    rw [hx] at d3 ⊢
    exact d3.mpr (by norm_num)
  · intro hx
    rw [hx] at d2 ⊢
    exact d2.mpr (by norm_num)

/-- C6 witness: the 30-observation window `obsW30` satisfies the size
hypothesis and the direction-band property. -/
theorem c6_witness :
    30 ≤ obsW30.length ∧
    ∃ tr, analyzeTrend sqrtW obsW30 7 = Except.ok tr ∧
      (tr.direction = Direction.increasing ↔ 1 / 100 < tr.slope) ∧
      (tr.direction = Direction.decreasing ↔ tr.slope < -(1 / 100)) ∧
      (tr.direction = Direction.stable ↔ -(1 / 100) ≤ tr.slope ∧ tr.slope ≤ 1 / 100) ∧
      (tr.slope = 1 / 200 → tr.direction = Direction.stable) ∧
      (tr.slope = -(1 / 50) → tr.direction = Direction.decreasing) :=
  ⟨by decide, c6_direction_bands sqrtW obsW30 7 (by decide)⟩

/-! ## C5 — R² definition and confidence tiers -/

/-- C5: on every accepted trend input, `rSquared` is
`1 - SS_residual/SS_total` (total sum of squares about `mean ys`), is
exactly 1 when the series is constant (`SS_total = 0`), and the confidence
tier is high exactly when `R² > 0.7`, medium exactly when
`0.4 < R² ≤ 0.7`, and low otherwise. -/
theorem c5_r_squared_tiers (s : SqrtFun) (obs : List Observation) (fd : ℕ)
    (h : 30 ≤ obs.length) :
    ∃ tr, analyzeTrend s obs fd = Except.ok tr ∧
      tr.rSquared = (if totalSS (obs.map (·.temperature)) = 0 then 1
        else 1 - ((residualsOf tr.slope tr.intercept (obs.map (·.temperature))).map
            (fun r => r ^ 2)).sum / totalSS (obs.map (·.temperature))) ∧
      (totalSS (obs.map (·.temperature)) = 0 → tr.rSquared = 1) ∧
      (tr.confidenceTier = ConfidenceTier.high ↔ 7 / 10 < tr.rSquared) ∧
      (tr.confidenceTier = ConfidenceTier.medium ↔
        4 / 10 < tr.rSquared ∧ tr.rSquared ≤ 7 / 10) ∧
      (tr.confidenceTier = ConfidenceTier.low ↔ tr.rSquared ≤ 4 / 10) := by
  refine ⟨_, analyzeTrend_eq s obs fd h, ?_⟩
  have hr2 : (mkTrendResult s obs fd
      (olsSlope (xsOf obs.length) (obs.map (·.temperature)))
      (olsIntercept (xsOf obs.length) (obs.map (·.temperature)))).rSquared =
      rSquaredOf (olsSlope (xsOf obs.length) (obs.map (·.temperature)))
        (olsIntercept (xsOf obs.length) (obs.map (·.temperature)))
        (obs.map (·.temperature)) := rfl
  have htier : (mkTrendResult s obs fd
      (olsSlope (xsOf obs.length) (obs.map (·.temperature)))
      (olsIntercept (xsOf obs.length) (obs.map (·.temperature)))).confidenceTier =
      tierOf (rSquaredOf (olsSlope (xsOf obs.length) (obs.map (·.temperature)))
        (olsIntercept (xsOf obs.length) (obs.map (·.temperature)))
        (obs.map (·.temperature))) := rfl
  have hsl : (mkTrendResult s obs fd
      (olsSlope (xsOf obs.length) (obs.map (·.temperature)))
      (olsIntercept (xsOf obs.length) (obs.map (·.temperature)))).slope =
      olsSlope (xsOf obs.length) (obs.map (·.temperature)) := rfl
  have hic : (mkTrendResult s obs fd
      (olsSlope (xsOf obs.length) (obs.map (·.temperature)))
      (olsIntercept (xsOf obs.length) (obs.map (·.temperature)))).intercept =
      olsIntercept (xsOf obs.length) (obs.map (·.temperature)) := rfl
  rw [hr2, htier, hsl, hic]
  obtain ⟨t1, t2, t3⟩ := tierOf_iff (rSquaredOf
    (olsSlope (xsOf obs.length) (obs.map (·.temperature)))
    (olsIntercept (xsOf obs.length) (obs.map (·.temperature)))
    (obs.map (·.temperature)))
  refine ⟨rfl, ?_, t1, t2, t3⟩
  intro hzero
  simp [rSquaredOf, hzero]

/-- C5 witness: the 30-observation window `obsW30` satisfies the size
hypothesis and the R²/confidence-tier property. -/
theorem c5_witness :
    30 ≤ obsW30.length ∧
    ∃ tr, analyzeTrend sqrtW obsW30 7 = Except.ok tr ∧
      tr.rSquared = (if totalSS (obsW30.map (·.temperature)) = 0 then 1
        else 1 - ((residualsOf tr.slope tr.intercept (obsW30.map (·.temperature))).map
            (fun r => r ^ 2)).sum / totalSS (obsW30.map (·.temperature))) ∧
      (totalSS (obsW30.map (·.temperature)) = 0 → tr.rSquared = 1) ∧
      (tr.confidenceTier = ConfidenceTier.high ↔ 7 / 10 < tr.rSquared) ∧
      (tr.confidenceTier = ConfidenceTier.medium ↔
        4 / 10 < tr.rSquared ∧ tr.rSquared ≤ 7 / 10) ∧
      (tr.confidenceTier = ConfidenceTier.low ↔ tr.rSquared ≤ 4 / 10) :=
  ⟨by decide, c5_r_squared_tiers sqrtW obsW30 7 (by decide)⟩

/-! ## C4 — forecast shape: 7 ascending entries with a flat margin -/

lemma forecastOf_getD (sl ic rstd : ℚ) (n fd j : ℕ) (hj : j < fd) :
    (forecastOf sl ic rstd n fd).getD j ⟨0, 0, 0, 0⟩ =
      { dayOffset := j + 1
        predictedValue := sl * ((n : ℚ) - 1 + ((j + 1 : ℕ) : ℚ)) + ic
        lowerBound := sl * ((n : ℚ) - 1 + ((j + 1 : ℕ) : ℚ)) + ic - 196 / 100 * rstd
        upperBound := sl * ((n : ℚ) - 1 + ((j + 1 : ℕ) : ℚ)) + ic + 196 / 100 * rstd } := by
  simp [forecastOf, List.getD_eq_getElem?_getD, List.getElem?_map, List.getElem?_range, hj]

/-- C4: on every accepted trend input with `forecastDays = 7`, the forecast
has exactly 7 entries with `dayOffset` ascending `1..7`; the entry at offset
`d` predicts `slope·(n-1+d) + intercept` with bounds
`predicted ± 1.96·residualStd` (population stddev of the OLS residuals), so
every entry has the same interval width. -/
theorem c4_forecast_shape (s : SqrtFun) (obs : List Observation)
    (h : 30 ≤ obs.length) : ForecastShapeProp s obs := by
  unfold ForecastShapeProp
  refine ⟨_, analyzeTrend_eq s obs 7 h, ?_, ?_, ?_, ?_⟩ <;>
    simp only [show ∀ a b, (mkTrendResult s obs 7 a b).forecast =
        forecastOf a b (stddev s (residualsOf a b (obs.map (·.temperature))))
          obs.length 7 from fun _ _ => rfl,
      show ∀ a b, (mkTrendResult s obs 7 a b).slope = a from fun _ _ => rfl,
      show ∀ a b, (mkTrendResult s obs 7 a b).intercept = b from fun _ _ => rfl]
  · simp [forecastOf]
  · intro j hj
    rw [forecastOf_getD _ _ _ _ _ _ hj]
  · intro j j' hj hj' hjj
    rw [forecastOf_getD _ _ _ _ _ _ hj, forecastOf_getD _ _ _ _ _ _ hj']
    simpa using hjj
  · intro j j' hj hj'
    rw [forecastOf_getD _ _ _ _ _ _ hj, forecastOf_getD _ _ _ _ _ _ hj']
    ring

/-- C4 witness: the 30-observation window `obsW30` satisfies the size
hypothesis and the forecast-shape property. -/
theorem c4_witness : 30 ≤ obsW30.length ∧ ForecastShapeProp sqrtW obsW30 :=
  ⟨by decide, c4_forecast_shape sqrtW obsW30 (by decide)⟩

/-! ## C1 — severity bands with half-open lower / closed upper boundaries -/

lemma classify_severity_eq_high (z : ℚ) :
    classify_severity z = Severity.High ↔ 3 < |z| := by
  unfold classify_severity
  split_ifs with h1 h2 <;> simp_all

lemma classify_severity_eq_medium (z : ℚ) :
    classify_severity z = Severity.Medium ↔ 2 < |z| ∧ |z| ≤ 3 := by
  unfold classify_severity
  split_ifs with h1 h2
  · constructor
    · intro hx
      exact hx.elim
    · rintro ⟨-, h3⟩
      exfalso
      linarith
  · constructor
    · intro hx
      exact ⟨h2, by linarith⟩
    · intro hx
      rfl
  · constructor
    · intro hx
      exact hx.elim
    · rintro ⟨h2x, -⟩
      exact absurd h2x h2

lemma classify_severity_eq_low (z : ℚ) :
    classify_severity z = Severity.Low ↔ |z| ≤ 2 := by
  unfold classify_severity
  split_ifs with h1 h2
  · constructor
    · intro hx
      exact hx.elim
    · intro hx
      exfalso
      linarith
  · constructor
    · intro hx
      exact hx.elim
    · intro hx
      exfalso
      linarith
  · constructor
    · intro hx
      linarith [not_lt.mp h2]
    · intro hx
      rfl

lemma detectAnomalies_eq (s : SqrtFun) (obs : List Observation)
    (h10 : 10 ≤ obs.length)
    (hsd : stddev s (obs.map (·.temperature)) ≠ 0) :
    detectAnomalies s obs = Except.ok (obs.filterMap
      (anomalyOf (mean (obs.map (·.temperature)))
        (stddev s (obs.map (·.temperature))))) := by
  simp [detectAnomalies, show ¬ obs.length < 10 by omega, hsd]

lemma anomalyOf_eq_some {m sd : ℚ} {o' : Observation} {r : AnomalyRecord}
    (h : anomalyOf m sd o' = some r) :
    3 / 2 < |(o'.temperature - m) / sd| ∧
      r = ⟨o'.timestamp, o'.temperature, m, (o'.temperature - m) / sd,
        classify_severity ((o'.temperature - m) / sd)⟩ := by
  simp only [anomalyOf] at h
  split at h
  · exact ⟨by assumption, (Option.some.inj h).symm⟩
  · exact absurd h (by simp)

lemma anomalyRec_mem_iff (s : SqrtFun) (obs : List Observation)
    (hnd : (obs.map (·.timestamp)).Nodup)
    (o : Observation) (ho : o ∈ obs) (sev : Severity) :
    anomalyRec s obs o sev ∈ obs.filterMap
      (anomalyOf (mean (obs.map (·.temperature)))
        (stddev s (obs.map (·.temperature)))) ↔
    3 / 2 < |zscoreOf s obs o| ∧ classify_severity (zscoreOf s obs o) = sev := by
  have hinj : ∀ a ∈ obs, ∀ b ∈ obs, a.timestamp = b.timestamp → a = b :=
    List.inj_on_of_nodup_map hnd
  rw [List.mem_filterMap]
  constructor
  · rintro ⟨o', ho', heq⟩
    obtain ⟨hgate, hrec⟩ := anomalyOf_eq_some heq
    rw [anomalyRec] at hrec
    simp only [AnomalyRecord.mk.injEq] at hrec
    obtain ⟨hts, -, -, hz, hsev⟩ := hrec
    obtain rfl : o' = o := hinj o' ho' o ho hts.symm
    rw [zscoreOf] at hz ⊢
    rw [← hz]
    exact ⟨hgate, hsev.symm⟩
  · rintro ⟨hgate, hsev⟩
    refine ⟨o, ho, ?_⟩
    have hg : 3 / 2 < |(o.temperature - mean (obs.map (·.temperature))) /
        stddev s (obs.map (·.temperature))| := by
      rw [zscoreOf] at hgate
      exact hgate
    unfold anomalyOf
    rw [if_pos hg]
    rw [anomalyRec, ← hsev]
    rfl

/-- C1: on every accepted anomaly window (length ≥ 10, non-zero temperature
stddev, distinct timestamps), each observation with z-score `z` is emitted
as High exactly when `|z| > 3`, Medium exactly when `2 < |z| ≤ 3`, Low
exactly when `1.5 < |z| ≤ 2`, and omitted exactly when `|z| ≤ 1.5`; in
particular `|z| = 2` lands in the Low band and `|z| = 1.5` is omitted. -/
theorem c1_severity_bands (s : SqrtFun) (obs : List Observation)
    (h10 : 10 ≤ obs.length)
    (hsd : stddev s (obs.map (·.temperature)) ≠ 0)
    (hnd : (obs.map (·.timestamp)).Nodup)
    (o : Observation) (ho : o ∈ obs) : SeverityBandsProp s obs o := by
  have hinj : ∀ a ∈ obs, ∀ b ∈ obs, a.timestamp = b.timestamp → a = b :=
    List.inj_on_of_nodup_map hnd
  refine ⟨_, detectAnomalies_eq s obs h10 hsd, ?_, ?_, ?_, ?_⟩
  · rw [anomalyRec_mem_iff s obs hnd o ho, classify_severity_eq_high]
    constructor
    · rintro ⟨-, h3⟩
      exact h3
    · intro h3
      exact ⟨by linarith, h3⟩
  · rw [anomalyRec_mem_iff s obs hnd o ho, classify_severity_eq_medium]
    constructor
    · rintro ⟨-, h2, h3⟩
      exact ⟨h2, h3⟩
    · rintro ⟨h2, h3⟩
      exact ⟨by linarith, h2, h3⟩
  · rw [anomalyRec_mem_iff s obs hnd o ho, classify_severity_eq_low]
  · constructor
    · intro hall
      by_contra hgt
      push_neg at hgt
      have hmem := (anomalyRec_mem_iff s obs hnd o ho
        (classify_severity (zscoreOf s obs o))).mpr ⟨hgt, rfl⟩
      exact hall _ hmem rfl
    · intro hle r hr hts
      obtain ⟨o', ho', heq⟩ := List.mem_filterMap.mp hr
      obtain ⟨hgate, hrec⟩ := anomalyOf_eq_some heq
      have hts' : o'.timestamp = o.timestamp := by
        rw [hrec] at hts
        exact hts
      obtain rfl : o' = o := hinj o' ho' o ho hts'
      rw [show (o'.temperature - mean (obs.map (·.temperature))) /
          stddev s (obs.map (·.temperature)) = zscoreOf s obs o' from rfl] at hgate
      linarith

lemma obsW10_sd_ne : stddev sqrtW (obsW10.map (·.temperature)) ≠ 0 := by
  have hv : variance (obsW10.map (·.temperature)) = 1 := by
    norm_num [obsW10, variance, mean]
  unfold stddev
  rw [hv]
  decide

/-- C1 witness: the 10-observation window `obsW10` (temperatures 0 and 2,
mean 1, standard deviation 1 under `sqrtW`, distinct timestamps) satisfies
every hypothesis, and its observation `oW` enjoys the band property. -/
theorem c1_witness :
    (10 ≤ obsW10.length ∧ stddev sqrtW (obsW10.map (·.temperature)) ≠ 0 ∧
      (obsW10.map (·.timestamp)).Nodup ∧ oW ∈ obsW10) ∧
    SeverityBandsProp sqrtW obsW10 oW :=
  ⟨⟨by decide, obsW10_sd_ne, by decide, by decide⟩,
    c1_severity_bands sqrtW obsW10 (by decide) obsW10_sd_ne (by decide) oW (by decide)⟩

/-! ## C7 — clustering partitions the valid observations -/

lemma argminFirst_lt : ∀ (l : List ℚ), l ≠ [] → argminFirst l < l.length
  | [], h => absurd rfl h
  | [_], _ => by simp [argminFirst]
  | x :: y :: t, _ => by
    have ih := argminFirst_lt (y :: t) (by simp)
    simp only [argminFirst]
    split
    · simp
    · simpa using Nat.succ_lt_succ ih

lemma assignIndex_lt (cents : List Point3) (r : Point3) (h : cents ≠ []) :
    assignIndex cents r < cents.length := by
  have hlt := argminFirst_lt (cents.map (dist2 r)) (by simpa using h)
  simpa [assignIndex] using hlt

lemma updateCentroids_length (rows cents : List Point3) :
    (updateCentroids rows cents).length = cents.length := by
  simp [updateCentroids]

lemma lloyd_length (rows : List Point3) (tol2 : ℚ) :
    ∀ (fuel : ℕ) (cents : List Point3),
      (lloyd rows tol2 fuel cents).length = cents.length
  | 0, cents => rfl
  | fuel + 1, cents => by
    simp only [lloyd]
    split
    · exact updateCentroids_length rows cents
    · rw [lloyd_length rows tol2 fuel _, updateCentroids_length]

lemma initCentroids_length (k : ℕ) (srows : List Point3) :
    (initCentroids k srows).length = k := by
  simp [initCentroids]

lemma standardRows_length (s : SqrtFun) (rows : List FeatRow) :
    (standardRows s rows).length = rows.length := by
  simp [standardRows, colStd]

lemma clusterLabels_length (s : SqrtFun) (rows : List FeatRow) (k mi : ℕ)
    (tol : ℚ) : (clusterLabels s rows k mi tol).length = rows.length := by
  simp [clusterLabels, standardRows_length]

lemma clusterLabels_lt (s : SqrtFun) (rows : List FeatRow) (k mi : ℕ)
    (tol : ℚ) (hk : 1 ≤ k) : ∀ x ∈ clusterLabels s rows k mi tol, x < k := by
  intro x hx
  simp only [clusterLabels, List.mem_map] at hx
  obtain ⟨r, -, rfl⟩ := hx
  have hlen : (lloyd (standardRows s rows) (tol ^ 2) mi
      (initCentroids k (standardRows s rows))).length = k := by
    rw [lloyd_length, initCentroids_length]
  have hne : lloyd (standardRows s rows) (tol ^ 2) mi
      (initCentroids k (standardRows s rows)) ≠ [] := by
    intro hempty
    rw [hempty] at hlen
    simp at hlen
    omega
  have hb := assignIndex_lt _ r hne
  rwa [hlen] at hb

lemma sum_map_add_nat {α : Type} (l : List α) (f g : α → ℕ) :
    (l.map (fun i => f i + g i)).sum = (l.map f).sum + (l.map g).sum := by
  induction l with
  | nil => simp
  | cons a t ih =>
    simp only [List.map_cons, List.sum_cons, ih]
    omega

lemma sum_indicator_range {a k : ℕ} (h : a < k) :
    ((List.range k).map (fun i => if a = i then 1 else 0)).sum = 1 := by
  induction k with
  | zero => omega
  | succ n ih =>
    rw [List.range_succ, List.map_append, List.sum_append]
    by_cases ha : a = n
    · subst ha
      have hz : ((List.range a).map (fun i => if a = i then 1 else 0)).sum = 0 := by
        apply List.sum_eq_zero
        intro x hx
        simp only [List.mem_map, List.mem_range] at hx
        obtain ⟨i, hi, rfl⟩ := hx
        simp [show a ≠ i by omega]
      simp [hz]
    · have ha' : a < n := by omega
      simp [ih ha', ha]

lemma bucket_sum {α : Type} :
    ∀ (zl : List (α × ℕ)) (k : ℕ), (∀ p ∈ zl, p.2 < k) →
      ((List.range k).map
        (fun i => (zl.filter (fun p => p.2 == i)).length)).sum = zl.length
  | [], k, _ => by simp
  | p :: t, k, h => by
    have hp : p.2 < k := h p (by simp)
    have ht : ∀ q ∈ t, q.2 < k := fun q hq => h q (by simp [hq])
    have hsplit : ∀ i ∈ List.range k,
        ((p :: t).filter (fun q => q.2 == i)).length
          = (t.filter (fun q => q.2 == i)).length + (if p.2 = i then 1 else 0) := by
      intro i _
      by_cases hpi : p.2 = i
      · simp [List.filter_cons, hpi]
      · simp [List.filter_cons, hpi]
    rw [List.map_congr_left hsplit, sum_map_add_nat, bucket_sum t k ht,
      sum_indicator_range hp]
    simp

lemma clusterPatterns_eq (s : SqrtFun) (obs : List Observation) (k mi : ℕ)
    (tol : ℚ) (h30 : 30 ≤ (featRows obs).length) :
    clusterPatterns s obs k mi tol = Except.ok ((List.range k).map
      (mkCluster (featRows obs) (clusterLabels s (featRows obs) k mi tol))) := by
  simp [clusterPatterns, show ¬ (featRows obs).length < 30 by omega]

lemma mkCluster_memberCount (rows : List FeatRow) (labels : List ℕ) (i : ℕ) :
    (mkCluster rows labels i).memberCount =
      ((rows.zip labels).filter (fun p => p.2 == i)).length := by
  simp [mkCluster]

lemma mkCluster_memberPercentage (rows : List FeatRow) (labels : List ℕ)
    (i : ℕ) :
    (mkCluster rows labels i).memberPercentage =
      100 * (((rows.zip labels).filter (fun p => p.2 == i)).length : ℚ) /
        (rows.length : ℚ) := by
  simp [mkCluster]

/-- C7: on every accepted clustering input (≥ 30 valid observations,
`k ≥ 1`), the result is `k` clusters whose member counts sum to the number
of valid observations (each valid observation is counted in exactly one
cluster), each `memberPercentage` equals `100·count/total`, and the
percentages sum to exactly 100 — within the spec's ±0.1 tolerance. -/
theorem c7_partition (s : SqrtFun) (obs : List Observation) (k mi : ℕ)
    (tol : ℚ) (h30 : 30 ≤ (featRows obs).length) (hk : 1 ≤ k) :
    PartitionProp s obs k mi tol := by
  have hlablen : (clusterLabels s (featRows obs) k mi tol).length =
      (featRows obs).length := clusterLabels_length s (featRows obs) k mi tol
  have hzlen : ((featRows obs).zip (clusterLabels s (featRows obs) k mi tol)).length
      = (featRows obs).length := by
    rw [List.length_zip, hlablen, Nat.min_self]
  have hblt : ∀ p ∈ (featRows obs).zip (clusterLabels s (featRows obs) k mi tol),
      p.2 < k := by
    rintro ⟨a, b⟩ hp
    exact clusterLabels_lt s (featRows obs) k mi tol hk b (List.of_mem_zip hp).2
  have hcount : ((List.range k).map (fun i =>
      (((featRows obs).zip (clusterLabels s (featRows obs) k mi tol)).filter
        (fun p => p.2 == i)).length)).sum = (featRows obs).length := by
    rw [bucket_sum _ k hblt, hzlen]
  have hcountmap : (((List.range k).map
        (mkCluster (featRows obs) (clusterLabels s (featRows obs) k mi tol))).map
      ClusterResult.memberCount).sum = (featRows obs).length := by
    rw [List.map_map]
    simp only [Function.comp_def]
    rw [List.map_congr_left (fun i _ => mkCluster_memberCount (featRows obs)
      (clusterLabels s (featRows obs) k mi tol) i)]
    exact hcount
  have hN : ((featRows obs).length : ℚ) ≠ 0 := by
    exact_mod_cast show (featRows obs).length ≠ 0 by omega
  have hsum100 : (((List.range k).map
        (mkCluster (featRows obs) (clusterLabels s (featRows obs) k mi tol))).map
      ClusterResult.memberPercentage).sum = 100 := by
    rw [List.map_map]
    simp only [Function.comp_def]
    rw [List.map_congr_left (fun i _ => mkCluster_memberPercentage (featRows obs)
      (clusterLabels s (featRows obs) k mi tol) i)]
    rw [List.map_congr_left (fun i (_ : i ∈ List.range k) =>
      show 100 * ((((featRows obs).zip (clusterLabels s (featRows obs) k mi tol)).filter
            (fun p => p.2 == i)).length : ℚ) / ((featRows obs).length : ℚ)
          = (100 / ((featRows obs).length : ℚ)) *
            ((((featRows obs).zip (clusterLabels s (featRows obs) k mi tol)).filter
              (fun p => p.2 == i)).length : ℚ) from by ring)]
    rw [List.sum_map_mul_left]
    have hcast : ((List.range k).map (fun i =>
        ((((featRows obs).zip (clusterLabels s (featRows obs) k mi tol)).filter
          (fun p => p.2 == i)).length : ℚ))).sum
        = (((List.range k).map (fun i =>
            (((featRows obs).zip (clusterLabels s (featRows obs) k mi tol)).filter
              (fun p => p.2 == i)).length)).sum : ℚ) := by
      rw [Nat.cast_list_sum, List.map_map]
      rfl
    rw [hcast, hcount, div_mul_cancel₀ _ hN]
  refine ⟨_, clusterPatterns_eq s obs k mi tol h30, by simp, hcountmap, ?_, hsum100, ?_⟩
  · intro c hc
    simp only [List.mem_map] at hc
    obtain ⟨i, -, rfl⟩ := hc
    rw [mkCluster_memberCount, mkCluster_memberPercentage]
  · rw [hsum100]
    norm_num

/-- C7 witness: the 30-observation window `obsW30` (all features present)
with `k = 3` satisfies the hypotheses and the partition property. -/
theorem c7_witness :
    (30 ≤ (featRows obsW30).length ∧ 1 ≤ 3) ∧
    PartitionProp sqrtW obsW30 3 100 (1 / 10000) :=
  ⟨⟨by decide, by decide⟩,
    c7_partition sqrtW obsW30 3 100 (1 / 10000) (by decide) (by decide)⟩

/-! ## C8 — clustering is deterministic and input-only dependent -/

lemma featRows_cons (a : Observation) (t : List Observation) :
    featRows (a :: t) = if a.humidity.isSome && a.pressure.isSome then
      (⟨a.timestamp, a.temperature, a.humidity.getD 0, a.pressure.getD 0⟩ : FeatRow)
        :: featRows t
    else featRows t := by
  simp only [featRows, List.filter_cons]
  split <;> simp_all

lemma featRows_eq_of_proj : ∀ {obs₁ obs₂ : List Observation},
    obs₁.map projUsed = obs₂.map projUsed → featRows obs₁ = featRows obs₂
  | [], [], _ => rfl
  | [], _ :: _, h => by simp at h
  | _ :: _, [], h => by simp at h
  | a :: t, b :: t₂, h => by
    simp only [List.map_cons, List.cons.injEq] at h
    obtain ⟨hab, ht⟩ := h
    simp only [projUsed, Prod.mk.injEq] at hab
    obtain ⟨hts, htemp, hhum, hpress⟩ := hab
    have hpred : (a.humidity.isSome && a.pressure.isSome)
        = (b.humidity.isSome && b.pressure.isSome) := by rw [hhum, hpress]
    rw [featRows_cons, featRows_cons, hpred, featRows_eq_of_proj ht]
    rw [hts, htemp, hhum, hpress]

/-- C8: `clusterPatterns` is deterministic and free of randomness — its
output is a pure function of the fields it reads (timestamp, temperature,
humidity, pressure; the condition label is ignored), so two runs on
field-identical inputs with identical parameters return identical cluster
lists in identical order; and centroid initialization is exactly the `k`
evenly spaced rows of the standardized rows sorted by the fixed
lexicographic key. -/
theorem c8_deterministic (s : SqrtFun) (obs₁ obs₂ : List Observation)
    (k mi : ℕ) (tol : ℚ) (h : obs₁.map projUsed = obs₂.map projUsed) :
    clusterPatterns s obs₁ k mi tol = clusterPatterns s obs₂ k mi tol ∧
    initCentroids k (standardRows s (featRows obs₁)) =
      (List.range k).map (fun i =>
        ((standardRows s (featRows obs₁)).mergeSort lexLe).getD
          (i * (standardRows s (featRows obs₁)).length / k) (0, 0, 0)) := by
  constructor
  · unfold clusterPatterns
    rw [featRows_eq_of_proj h]
  · rfl

/-- C8 witness: `obsW30` and `obsW30zz` differ only in every observation's
(unused) condition label; clustering them with identical parameters gives
identical results. -/
theorem c8_witness :
    obsW30.map projUsed = obsW30zz.map projUsed ∧
    (clusterPatterns sqrtW obsW30 3 100 (1 / 10000) =
        clusterPatterns sqrtW obsW30zz 3 100 (1 / 10000) ∧
      initCentroids 3 (standardRows sqrtW (featRows obsW30)) =
        (List.range 3).map (fun i =>
          ((standardRows sqrtW (featRows obsW30)).mergeSort lexLe).getD
            (i * (standardRows sqrtW (featRows obsW30)).length / 3) (0, 0, 0))) :=
  ⟨by decide, c8_deterministic sqrtW obsW30 obsW30zz 3 100 (1 / 10000) (by decide)⟩

end WeatherInsight
